import Mathlib

/-!
Verification of the Modbus/TCP shared-memory server (`modbus_tcp_client_shm`).

Shallow embedding of the parts of the source relevant to the checked claims:
  * `src/src/Modbus_TCP_Client_poll.cpp` — the poll-based server loop
    (`Client_Poll::run`), its semaphore error counter, its poll set and its
    per-client revents dispatch;
  * `src/src/Mb_Proc_Signal.cpp` — the write-notification signal channel;
  * `src/src/main.cpp` — argument checking and `--separate` bank creation;
  * `src/src/modbus_shm.cpp` — the `Shm_Mapping` constructor argument checks.

C++ machine integers are modelled as `Int`/`Nat` (the values involved stay far
from any overflow boundary: the counter is a `long` bounded by 1009, register
counts are `size_t` compared against 0x10000).
-/

namespace ClientPoll

/-! ### Semaphore error counter (`Modbus_TCP_Client_poll.cpp`, lines 25–35) -/

/-- `static constexpr long SEMAPHORE_ERROR_INC = 10;` -/
def SEMAPHORE_ERROR_INC : Int := 10

/-- `static constexpr long SEMAPHORE_ERROR_DEC = 1;` -/
def SEMAPHORE_ERROR_DEC : Int := 1

/-- `static constexpr long SEMAPHORE_ERROR_MAX = 1000;` -/
def SEMAPHORE_ERROR_MAX : Int := 1000

/-- Outcome of one semaphore acquisition attempt (`semaphore->wait(...)`). -/
inductive AcquireOutcome where
  | success
  | failure
deriving DecidableEq, Repr

/-- Counter update on a failed acquire:
`semaphore_error_counter += SEMAPHORE_ERROR_INC;` -/
def semFailUpdate (c : Int) : Int := c + SEMAPHORE_ERROR_INC

/-- Counter update on a successful acquire:
`semaphore_error_counter -= SEMAPHORE_ERROR_DEC; if (semaphore_error_counter < 0) semaphore_error_counter = 0;` -/
def semSuccUpdate (c : Int) : Int :=
  let c2 := c - SEMAPHORE_ERROR_DEC
  if c2 < 0 then 0 else c2

/-- The evolution of `semaphore_error_counter` across a sequence of request
cycles, one acquisition attempt per handled request (`run`, lines 391–408).
Returns `none` when the cycle returns `run_t::semaphore` (after
`close_con`), i.e. when `semaphore_error_counter >= SEMAPHORE_ERROR_MAX`
right after a failed acquire; otherwise `some` of the final counter. -/
def runAcquires : List AcquireOutcome → Int → Option Int
  | [], c => some c
  | .failure :: rest, c =>
      let c2 := semFailUpdate c
      if SEMAPHORE_ERROR_MAX ≤ c2 then none else runAcquires rest c2
  | .success :: rest, c => runAcquires rest (semSuccUpdate c)

/-! ### Semaphore wait timeout (`Modbus_TCP_Client_poll.cpp`, lines 34–35) -/

/-- POSIX `struct timespec`: seconds and nanoseconds. -/
structure Timespec where
  tv_sec : Int
  tv_nsec : Int
deriving DecidableEq, Repr

/-- `static constexpr struct timespec SEMAPHORE_MAX_TIME = {0, 100'000};`
(the initializer order is `{tv_sec, tv_nsec}`). -/
def SEMAPHORE_MAX_TIME : Timespec := { tv_sec := 0, tv_nsec := 100000 }

/-- The duration a `timespec` denotes, in nanoseconds. -/
def Timespec.toNanoseconds (t : Timespec) : Int :=
  t.tv_sec * 1000000000 + t.tv_nsec

/-- Nanoseconds per millisecond. -/
def NS_PER_MS : Int := 1000000

/-! ### Per-client revents dispatch (`Modbus_TCP_Client_poll.cpp`, lines 369–427) -/

/-- Linux `poll.h` constant. -/
def POLLIN : Nat := 1

/-- Linux `poll.h` constant. -/
def POLLERR : Nat := 8

/-- Linux `poll.h` constant. -/
def POLLHUP : Nat := 16

/-- Linux `poll.h` constant. -/
def POLLNVAL : Nat := 32

/-- C++ logical negation on an integer: `!x` is `1` when `x == 0`, else `0`
(the `bool` result promoted back to `int`, as it is inside the bitwise
expression `fd.revents & POLLHUP & !(fd.revents & POLLERR)`). -/
def cppNot (x : Nat) : Nat := if x = 0 then 1 else 0

/-- What `run` does with one client pollfd, by its `revents` bits. -/
inductive ClientAction where
  | noAction
  | logicError
  | closeHup
  | aduExchange
deriving DecidableEq, Repr

/-- The per-client dispatch of `run` (lines 369–427), translated literally:

```
if (fd.revents) {
    if (fd.revents & POLLNVAL) { throw std::logic_error(...); }
    if (fd.revents & POLLHUP & !(fd.revents & POLLERR)) { close_con(...); }
    else if (fd.revents & POLLIN || fd.revents & POLLERR) { ... ADU exchange ... }
}
```

`closeHup` is the `close_con` branch, `aduExchange` the receive/reply branch. -/
def clientDispatch (revents : Nat) : ClientAction :=
  if revents = 0 then .noAction
  else if revents &&& POLLNVAL ≠ 0 then .logicError
  else if revents &&& POLLHUP &&& cppNot (revents &&& POLLERR) ≠ 0 then .closeHup
  else if revents &&& POLLIN ≠ 0 ∨ revents &&& POLLERR ≠ 0 then .aduExchange
  else .noAction

/-! ### Poll set construction (`Modbus_TCP_Client_poll.cpp`, lines 265–294) -/

/-- The state `run` consults when it builds the poll set: the signal fd, the
listening socket, the capacity `max_clients` and the keys of `client_addrs`
(the open client fds, in iteration order). -/
structure PollConfig where
  signal_fd : Int
  server_socket : Int
  max_clients : Nat
  client_fds : List Int
deriving Repr

/-- `const bool poll_server = active_clients < max_clients;` where
`active_clients = client_addrs.size()`. -/
def pollServer (cfg : PollConfig) : Bool :=
  cfg.client_fds.length < cfg.max_clients

/-- The file descriptors handed to `poll`: slot 0 is `signal_fd`, then the
server socket when `poll_server`, then every client fd (lines 268–289);
`poll` is called on the first `poll_size` slots only. -/
def pollSet (cfg : PollConfig) : List Int :=
  [cfg.signal_fd]
    ++ (if pollServer cfg then [cfg.server_socket] else [])
    ++ cfg.client_fds

/-- `const nfds_t poll_size = active_clients + (poll_server ? 2 : 1);`
(line 292). -/
def poll_size (cfg : PollConfig) : Nat :=
  cfg.client_fds.length + (if pollServer cfg then 2 else 1)

/-! ### Semaphore bracket around one request (`Modbus_TCP_Client_poll.cpp`, lines 391–417) -/

/-- Result of the request-handling step for one readable client fd
(the `rc > 0` branch of the ADU exchange). -/
inductive ReqOutcome where
  | semaphoreReturn
  | closedAfterReplyFailure
  | replied
deriving DecidableEq, Repr

/-- Observables of one request-handling step that matter for the
acquire/release discipline. -/
structure ReqTrace where
  outcome : ReqOutcome
  /-- whether `semaphore->wait` succeeded, i.e. `semaphore->is_acquired()`
  holds between the wait and the post point -/
  wasAcquired : Bool
  /-- whether `semaphore->post()` was called -/
  posted : Bool
  /-- whether `post` was ever called while the semaphore was not held -/
  postedWhileNotHeld : Bool
  /-- whether the semaphore is still held when the step is over -/
  finalHeld : Bool
  counter : Int
deriving DecidableEq, Repr

/-- The tail of the request-handling step, from `modbus_reply` on:

```
int ret = modbus_reply(modbus, query, rc, mapping);
if (semaphore && semaphore->is_acquired()) semaphore->post();
if (ret == -1) { ... close_con(client_addrs); }
```

`held` is `semaphore->is_acquired()` at entry; `replyFails` is `ret == -1`. -/
def afterReply (semEnabled held replyFails : Bool) (c : Int) : ReqTrace :=
  let doPost := semEnabled && held
  { outcome := if replyFails then .closedAfterReplyFailure else .replied
    wasAcquired := held
    posted := doPost
    postedWhileNotHeld := doPost && !held
    finalHeld := held && !doPost
    counter := c }

/-- One request-handling step (lines 391–417): the optional timed wait, the
error-counter update, the reply, and the conditional `post`. `waitOk` is the
result `semaphore->wait(SEMAPHORE_MAX_TIME)` would return; `replyFails`
whether `modbus_reply` returns `-1`. -/
def handleRequest (semEnabled waitOk : Bool) (c : Int) (replyFails : Bool) :
    ReqTrace :=
  if semEnabled then
    if !waitOk then
      let c2 := semFailUpdate c
      if SEMAPHORE_ERROR_MAX ≤ c2 then
        { outcome := .semaphoreReturn
          wasAcquired := false
          posted := false
          postedWhileNotHeld := false
          finalHeld := false
          counter := c2 }
      else afterReply semEnabled false replyFails c2
    else afterReply semEnabled true replyFails (semSuccUpdate c)
  else afterReply semEnabled false replyFails c

end ClientPoll

namespace MbProcSignal

/-! ### Write-notification channel (`Mb_Proc_Signal.cpp`) -/

/-- `libmodbus` function-code constant `MODBUS_FC_WRITE_SINGLE_COIL`. -/
def MODBUS_FC_WRITE_SINGLE_COIL : Nat := 5

/-- `libmodbus` function-code constant `MODBUS_FC_WRITE_SINGLE_REGISTER`. -/
def MODBUS_FC_WRITE_SINGLE_REGISTER : Nat := 6

/-- `libmodbus` function-code constant `MODBUS_FC_WRITE_MULTIPLE_COILS` (0x0F). -/
def MODBUS_FC_WRITE_MULTIPLE_COILS : Nat := 15

/-- `libmodbus` function-code constant `MODBUS_FC_WRITE_MULTIPLE_REGISTERS` (0x10). -/
def MODBUS_FC_WRITE_MULTIPLE_REGISTERS : Nat := 16

/-- `libmodbus` function-code constant `MODBUS_FC_WRITE_AND_READ_REGISTERS` (0x17). -/
def MODBUS_FC_WRITE_AND_READ_REGISTERS : Nat := 23

/-- The write set of the spec: {05, 06, 15, 16, 23}. -/
def writeFunctionCodes : List Nat :=
  [ MODBUS_FC_WRITE_SINGLE_COIL, MODBUS_FC_WRITE_SINGLE_REGISTER,
   MODBUS_FC_WRITE_MULTIPLE_COILS, MODBUS_FC_WRITE_MULTIPLE_REGISTERS,
   MODBUS_FC_WRITE_AND_READ_REGISTERS]

/-- `mb_callback` (`Mb_Proc_Signal.cpp`, lines 53–66): the `switch` falls
through the five write-function-code cases to a single
`send_signal({.sival_int = fc})` call and does nothing on `default`.
The result is the list of `sival_int` payloads passed to
`Mb_Proc_Signal::get_instance().send_signal`. -/
def mb_callback (fc : Nat) : List Nat :=
  if fc = MODBUS_FC_WRITE_SINGLE_COIL ∨ fc = MODBUS_FC_WRITE_SINGLE_REGISTER ∨
     fc = MODBUS_FC_WRITE_MULTIPLE_COILS ∨ fc = MODBUS_FC_WRITE_MULTIPLE_REGISTERS ∨
     fc = MODBUS_FC_WRITE_AND_READ_REGISTERS
  then [fc] else []

/-- Observable events of one request/reply round, used to state the ordering
between the notifier broadcast and the reply hitting the wire. -/
inductive WireEvent where
  | broadcast (fc : Nat)
  | replyWrite
deriving DecidableEq, Repr

/-- Modelled from the spec: the generation of `Client_Poll::run` that invokes
the per-telegram function-code callback is not in `src/` (the header
`Modbus_TCP_Client_poll.hpp` declares `run` with an
`mb_function_callback` parameter, but the `.cpp` in the tree defines an
older-generation `run` without it). Per the spec, the server
"passes the function code to NF" for write codes and
"NF signals listeners → SL writes the reply on the same socket"
(§2 data flow; §8: "NF.broadcast is called exactly once with fc=R.fc
before the reply is written to the wire"). The events of one round for a
request with function code `fc` are therefore the broadcasts made by
`mb_callback fc`, followed by the reply write. -/
def aduRoundEvents (fc : Nat) : List WireEvent :=
  (mb_callback fc).map WireEvent.broadcast ++ [WireEvent.replyWrite]

/-- Result of one `sigqueue(proc, SIGUSR1, value)` call. -/
inductive SigResult where
  | ok
  | esrch
  | otherError
deriving DecidableEq, Repr

/-- The first `for` loop of `Mb_Proc_Signal::send_signal` (lines 33–44):
iterate the receiver set; `ESRCH` appends the pid to `erased` and
continues; any other failure throws `std::system_error` (modelled as
`Except.error` carrying the offending pid). On completion, returns the
`erased` list. -/
def sendLoop (deliver : Int → SigResult) : List Int → Except Int (List Int)
  | [] => .ok []
  | p :: rest =>
    match deliver p with
    | .ok => sendLoop deliver rest
    | .esrch => (sendLoop deliver rest).map (fun er => p :: er)
    | .otherError => .error p

/-- `Mb_Proc_Signal::send_signal` (lines 32–51): run the delivery loop, then
remove every erased pid from the receiver set (the second `for` loop,
one `processes.erase(proc)` and one warning line per erased pid).
Returns the new receiver set, or the error from the loop. -/
def send_signal (processes : List Int) (deliver : Int → SigResult) :
    Except Int (List Int) :=
  (sendLoop deliver processes).map
    (fun erased => processes.filter (fun p => decide (p ∉ erased)))

end MbProcSignal

namespace ClientPoll

/-! ### `enable_semaphore` (`Modbus_TCP_Client_poll.cpp`, lines 190–194) -/

/-- The data `cxxsemaphore::Semaphore` is constructed from in
`enable_semaphore` (name, initial value 1, force flag). -/
structure Semaphore where
  name : String
  force : Bool
deriving DecidableEq, Repr

/-- `Client_Poll::enable_semaphore`:

```
if (semaphore) throw std::logic_error("semaphore already enabled");
semaphore = std::make_unique<cxxsemaphore::Semaphore>(name, 1, force);
```

Takes the current `semaphore` member (`none` when no semaphore is enabled)
and returns the call result (`Except.error` models the thrown
`std::logic_error`) paired with the `semaphore` member after the call. -/
def enable_semaphore (semaphore : Option Semaphore) (name : String)
    (force : Bool) : Except String Unit × Option Semaphore :=
  match semaphore with
  | some s => (.error "semaphore already enabled", some s)
  | none => (.ok (), some { name := name, force := force })

end ClientPoll

namespace Main

/-! ### Register-count checks (`main.cpp`, lines 299–317, and
`modbus_shm.cpp`, lines 13–25) -/

/-- `sysexits.h`: `EX_USAGE`. -/
def EX_USAGE : Nat := 64

/-- `sysexits.h`: `EX_OSERR`. -/
def EX_OSERR : Nat := 71

/-- `static constexpr size_t MODBUS_MAX_REGS = 0x10000;` (`main.cpp`, line 47). -/
def MODBUS_MAX_REGS : Nat := 65536

/-- The four register-count checks of `main` (lines 299–317): each compares
the option value against `MODBUS_MAX_REGS` with `>` and returns
`exit_usage()` (= `EX_USAGE`) when it is exceeded. Returns `some code`
when `main` returns there, `none` when all four checks pass. -/
def checkRegisterArgs (doRegs diRegs aoRegs aiRegs : Nat) : Option Nat :=
  if doRegs > MODBUS_MAX_REGS then some EX_USAGE
  else if diRegs > MODBUS_MAX_REGS then some EX_USAGE
  else if aoRegs > MODBUS_MAX_REGS then some EX_USAGE
  else if aiRegs > MODBUS_MAX_REGS then some EX_USAGE
  else none

/-- Exceptions the `Shm_Mapping` constructor can throw that matter here. -/
inductive ShmException where
  | invalidArgument
  | systemError
deriving DecidableEq, Repr

/-- The argument-range checks of `Shm_Mapping::Shm_Mapping`
(`modbus_shm.cpp`, lines 19–25):

```
if (nb_bits > 0x10000 || !nb_bits) throw std::invalid_argument(...);
...
```

(the later `shm_open`/`ftruncate`/`mmap` failures throw
`std::system_error`; they depend on the OS state, not on the counts, and
are outside this model). -/
def shmMappingArgCheck (nb_bits nb_input_bits nb_registers nb_input_registers :
    Nat) : Option ShmException :=
  if nb_bits > 65536 ∨ nb_bits = 0 then some .invalidArgument
  else if nb_input_bits > 65536 ∨ nb_input_bits = 0 then some .invalidArgument
  else if nb_registers > 65536 ∨ nb_registers = 0 then some .invalidArgument
  else if nb_input_registers > 65536 ∨ nb_input_registers = 0 then
    some .invalidArgument
  else none

/-- How `main` leaves its startup phase for given register counts. -/
inductive StartupOutcome where
  | exitCode (code : Nat)
  | uncaughtException
  | proceeds
deriving DecidableEq, Repr

/-- The startup path of `main` as a function of the four register counts:
first the CLI checks (lines 299–317), then the fallback `Shm_Mapping`
construction (lines 374–388), whose surrounding handler is
`catch (const std::system_error &e) { ...; return EX_OSERR; }` — a thrown
`std::invalid_argument` is caught nowhere in `main` and terminates the
process abnormally. -/
def startupOutcome (doRegs diRegs aoRegs aiRegs : Nat) : StartupOutcome :=
  match checkRegisterArgs doRegs diRegs aoRegs aiRegs with
  | some code => .exitCode code
  | none =>
    match shmMappingArgCheck doRegs diRegs aoRegs aiRegs with
    | some .systemError => .exitCode EX_OSERR
    | some .invalidArgument => .uncaughtException
    | none => .proceeds

/-! ### `--separate` bank creation (`main.cpp`, lines 417–441) -/

/-- What a slot of `mb_mappings` points to after startup: the fallback
`Shm_Mapping` or the dedicated one created for a listed unit id. -/
inductive BankSlot where
  | fallback
  | dedicated (id : Nat)
deriving DecidableEq, Repr

/-- The `for (auto a : id_set)` loop body: one `Shm_Mapping` is created and
`mb_mappings[a]` is set to it. The fold carries the slot assignment. -/
def separateLoop : List Nat → (Nat → BankSlot) → (Nat → BankSlot)
  | [], slots => slots
  | a :: rest, slots =>
      separateLoop rest (fun i => if i = a then .dedicated a else slots i)

/-- The `--separate` handling of `main` (lines 417–441): the listed ids are
poured into `std::unordered_set<uint8_t> id_set(id_list.begin(), id_list.end())`
(modelled as `idList.dedup`; the loop result does not depend on the
iteration order), the loop creates one dedicated `Shm_Mapping` per set
element, and every other slot keeps the fallback mapping that
`mb_mappings.fill(fallback_mapping->get_mapping())` installed (line 414).
Returns the final slot assignment and the number of dedicated
`Shm_Mapping` objects created (one `separate_mappings.emplace_back` per
loop iteration). -/
def buildSeparate (idList : List Nat) : (Nat → BankSlot) × Nat :=
  let idSet := idList.dedup
  (separateLoop idSet (fun _ => .fallback), idSet.length)

end Main

/-! ## Theorems -/

/-- C3 (code evaluated at the constant): the `timespec` passed to
`semaphore->wait` on every request-handling step, `SEMAPHORE_MAX_TIME =
{0, 100'000}`, denotes 100,000 nanoseconds = 100 microseconds, which is
not the 100 milliseconds announced by the adjacent comment, the warning
log line and the spec. -/
theorem semaphore_wait_timespec_is_100us_not_100ms :
    ClientPoll.SEMAPHORE_MAX_TIME.toNanoseconds = 100000 ∧
    ClientPoll.SEMAPHORE_MAX_TIME.toNanoseconds ≠ 100 * ClientPoll.NS_PER_MS := by
  constructor <;> decide

/-- Helper for C5: `x & POLLHUP & !(y)` is identically zero, because the C++
`!` yields the int 0 or 1 and `POLLHUP & 1 = 0` (POLLHUP is bit 4). -/
theorem and_pollhup_and_cppNot (r x : Nat) :
    r &&& ClientPoll.POLLHUP &&& ClientPoll.cppNot x = 0 := by
  rw [Nat.land_assoc]
  unfold ClientPoll.cppNot ClientPoll.POLLHUP
  split <;> simp

/-- C5: the condition guarding the hang-up close,
`fd.revents & POLLHUP & !(fd.revents & POLLERR)`, mixes bitwise `&` with a
boolean `!`, so it is identically zero and the `close_con` branch for
hang-up is unreachable; in particular a pure `POLLHUP` readiness
(`revents = 16`, no `POLLERR`, no `POLLIN`) takes no action at all — the
connection is neither closed nor served. -/
theorem pollhup_without_error_never_closes :
    (∀ revents : Nat,
      ClientPoll.clientDispatch revents ≠ ClientPoll.ClientAction.closeHup) ∧
    ClientPoll.clientDispatch ClientPoll.POLLHUP =
      ClientPoll.ClientAction.noAction := by
  constructor
  · intro r
    unfold ClientPoll.clientDispatch
    rw [and_pollhup_and_cppNot r]
    split
    · simp
    · split
      · simp
      · simp only [ne_eq, not_true_eq_false, reduceIte]
        split <;> simp
  · decide

/-- C9: calling `enable_semaphore` when a semaphore is already enabled throws
`std::logic_error` and leaves the stored semaphore unchanged; after a
successful first `enable_semaphore`, every further call fails the same
way, so the XPM can be enabled at most once per `Client_Poll` instance. -/
theorem enable_semaphore_at_most_once (s : ClientPoll.Semaphore)
    (name : String) (force : Bool) :
    (ClientPoll.enable_semaphore (some s) name force).1 =
      Except.error "semaphore already enabled" ∧
    (ClientPoll.enable_semaphore (some s) name force).2 = some s ∧
    (ClientPoll.enable_semaphore none name force).1 = Except.ok () ∧
    (∀ name2 force2,
      (ClientPoll.enable_semaphore
          (ClientPoll.enable_semaphore none name force).2 name2 force2).1 =
        Except.error "semaphore already enabled" ∧
      (ClientPoll.enable_semaphore
          (ClientPoll.enable_semaphore none name force).2 name2 force2).2 =
        some { name := name, force := force }) := by
  simp [ClientPoll.enable_semaphore]

/-- C6: on every execution path of the request-handling step — semaphore
disabled, acquire failure below and at the error cap, acquire success
with a successful or failing `modbus_reply` — the semaphore is not held
once the step is over, a `post` happens exactly when the semaphore was
acquired, and no `post` is ever attempted while the semaphore is not
held. -/
theorem semaphore_released_on_every_path
    (semEnabled waitOk replyFails : Bool) (c : Int) :
    (ClientPoll.handleRequest semEnabled waitOk c replyFails).finalHeld = false ∧
    (ClientPoll.handleRequest semEnabled waitOk c replyFails).posted =
      (ClientPoll.handleRequest semEnabled waitOk c replyFails).wasAcquired ∧
    (ClientPoll.handleRequest semEnabled waitOk c replyFails).postedWhileNotHeld
      = false := by
  unfold ClientPoll.handleRequest ClientPoll.afterReply
  cases semEnabled <;> cases waitOk <;> cases replyFails <;>
    simp <;> split <;> simp

/-- C4: the fds handed to `poll` are exactly the signal fd, the listening
socket if and only if the number of open client connections is strictly
below `max_clients`, and every open client fd; consequently `poll_size`
(the length of the polled prefix) is the client count plus 2 while
capacity exists and plus 1 when the table is full. -/
theorem poll_set_composition (cfg : ClientPoll.PollConfig) :
    (∀ fd : Int, fd ∈ ClientPoll.pollSet cfg ↔
      fd = cfg.signal_fd ∨
      (cfg.client_fds.length < cfg.max_clients ∧ fd = cfg.server_socket) ∨
      fd ∈ cfg.client_fds) ∧
    (ClientPoll.pollSet cfg).length = ClientPoll.poll_size cfg ∧
    (cfg.client_fds.length < cfg.max_clients →
      ClientPoll.poll_size cfg = cfg.client_fds.length + 2) ∧
    (¬ cfg.client_fds.length < cfg.max_clients →
      ClientPoll.poll_size cfg = cfg.client_fds.length + 1) := by
  unfold ClientPoll.pollSet ClientPoll.poll_size ClientPoll.pollServer
  by_cases h : cfg.client_fds.length < cfg.max_clients <;> simp [h]

/-- Witness for C4 at a concrete configuration: signal fd 100, server socket
4, capacity 2, one client fd 7. -/
theorem poll_set_composition_witness :
    (7 : Int) ∈ ClientPoll.pollSet ⟨100, 4, 2, [7]⟩ ∧
    ClientPoll.poll_size ⟨100, 4, 2, [7]⟩ = 1 + 2 := by
  have h := poll_set_composition ⟨100, 4, 2, [7]⟩
  refine ⟨(h.1 7).mpr (Or.inr (Or.inr (by decide))), ?_⟩
  simpa using h.2.2.1 (by decide)

/-- Helper for C1: a prefix of failed acquires that keeps the counter below
`SEMAPHORE_ERROR_MAX` adds `SEMAPHORE_ERROR_INC` per failure and never
returns the `semaphore` outcome. -/
theorem runAcquires_replicate_failure (J : Nat) (c : Int)
    (h : c + 10 * J < 1000) :
    ClientPoll.runAcquires (List.replicate J .failure) c = some (c + 10 * J) := by
  induction J generalizing c with
  | zero => simp [ClientPoll.runAcquires]
  | succ n ih =>
    rw [List.replicate_succ]
    simp only [ClientPoll.runAcquires, ClientPoll.semFailUpdate,
      ClientPoll.SEMAPHORE_ERROR_INC, ClientPoll.SEMAPHORE_ERROR_MAX]
    rw [if_neg (by push_cast at h ⊢; omega)]
    rw [ih (c + 10) (by push_cast at h ⊢; omega)]
    congr 1
    push_cast
    ring

/-- Helper for C1: successful acquires decrement the counter by
`SEMAPHORE_ERROR_DEC` each, with a floor of 0, and never return the
`semaphore` outcome. -/
theorem runAcquires_replicate_success (K : Nat) (c : Int) (h : 0 ≤ c) :
    ClientPoll.runAcquires (List.replicate K .success) c =
      some (max 0 (c - K)) := by
  induction K generalizing c with
  | zero =>
    simp only [List.replicate, ClientPoll.runAcquires, Nat.cast_zero, sub_zero,
      max_eq_right h]
  | succ n ih =>
    rw [List.replicate_succ]
    simp only [ClientPoll.runAcquires]
    rw [ih _ (by
      simp only [ClientPoll.semSuccUpdate, ClientPoll.SEMAPHORE_ERROR_DEC]
      split <;> omega)]
    congr 1
    simp only [ClientPoll.semSuccUpdate, ClientPoll.SEMAPHORE_ERROR_DEC]
    push_cast
    split <;> omega

/-- Helper for C1: if the first phase of an acquire sequence ends with
counter `c2` (and no `semaphore` outcome), the whole sequence continues
from `c2`. -/
theorem runAcquires_append_some (l1 l2 : List ClientPoll.AcquireOutcome)
    (c c2 : Int) (h : ClientPoll.runAcquires l1 c = some c2) :
    ClientPoll.runAcquires (l1 ++ l2) c = ClientPoll.runAcquires l2 c2 := by
  induction l1 generalizing c with
  | nil =>
    simp only [ClientPoll.runAcquires, Option.some_inj] at h
    rw [List.nil_append, h]
  | cons a rest ih =>
    cases a with
    | failure =>
      simp only [ClientPoll.runAcquires] at h
      rw [List.cons_append]
      simp only [ClientPoll.runAcquires]
      split at h
      · exact absurd h (by simp)
      · next hc =>
        rw [if_neg hc]
        exact ih _ h
    | success =>
      simp only [ClientPoll.runAcquires] at h
      rw [List.cons_append]
      simp only [ClientPoll.runAcquires]
      exact ih _ h

/-- C1: starting from counter 0, each failed acquire adds
`SEMAPHORE_ERROR_INC = 10` and each successful acquire subtracts
`SEMAPHORE_ERROR_DEC = 1` with a floor of 0, so J failures (J ≤ 99, so the
cap is not hit) followed by K successes leave the counter at
`max 0 (J*10 - K*1)` with the server still running; 100 consecutive
failures make the counter reach `SEMAPHORE_ERROR_MAX = 1000` and the cycle
return the `semaphore` outcome (`none`, after closing the connection),
while after 99 it is still running. -/
theorem semaphore_error_counter_evolution (J K : Nat) :
    (J ≤ 99 →
      ClientPoll.runAcquires
          (List.replicate J .failure ++ List.replicate K .success) 0 =
        some (max 0 (10 * (J : Int) - K))) ∧
    ClientPoll.runAcquires (List.replicate 100 .failure) 0 = none := by
  constructor
  · intro hJ
    have h1 : ClientPoll.runAcquires (List.replicate J .failure) 0 =
        some (0 + 10 * J) :=
      runAcquires_replicate_failure J 0 (by omega)
    rw [runAcquires_append_some _ _ _ _ h1,
      runAcquires_replicate_success K _ (by positivity)]
    congr 1
    omega
  · decide

/-- Witness for C1: 99 failures followed by one success leave the counter at
`max 0 (990 - 1) = 989` with the server running; 100 failures return the
`semaphore` outcome. -/
theorem semaphore_error_counter_evolution_witness :
    ClientPoll.runAcquires
        (List.replicate 99 .failure ++ List.replicate 1 .success) 0 =
      some 989 ∧
    ClientPoll.runAcquires (List.replicate 100 .failure) 0 = none := by
  have h := semaphore_error_counter_evolution 99 1
  refine ⟨?_, h.2⟩
  rw [h.1 (by norm_num)]
  norm_num

/-- C2: for a request with function code in the write set {05, 06, 15, 16,
23}, the round's events are exactly one notifier broadcast carrying that
function code, followed by the reply write; for any function code outside
the write set — in particular 01, 02, 03, 04 — no broadcast happens. -/
theorem notifier_broadcast_iff_write_code (fc : Nat) :
    (fc ∈ MbProcSignal.writeFunctionCodes →
      MbProcSignal.aduRoundEvents fc =
        [MbProcSignal.WireEvent.broadcast fc,
         MbProcSignal.WireEvent.replyWrite]) ∧
    (fc ∉ MbProcSignal.writeFunctionCodes →
      MbProcSignal.aduRoundEvents fc = [MbProcSignal.WireEvent.replyWrite]) := by
  unfold MbProcSignal.aduRoundEvents MbProcSignal.mb_callback
  have hmem : fc ∈ MbProcSignal.writeFunctionCodes ↔
      (fc = MbProcSignal.MODBUS_FC_WRITE_SINGLE_COIL ∨
       fc = MbProcSignal.MODBUS_FC_WRITE_SINGLE_REGISTER ∨
       fc = MbProcSignal.MODBUS_FC_WRITE_MULTIPLE_COILS ∨
       fc = MbProcSignal.MODBUS_FC_WRITE_MULTIPLE_REGISTERS ∨
       fc = MbProcSignal.MODBUS_FC_WRITE_AND_READ_REGISTERS) := by
    unfold MbProcSignal.writeFunctionCodes
    simp
  constructor
  · intro h
    rw [if_pos (hmem.mp h)]
    simp
  · intro h
    rw [if_neg (fun hc => h (hmem.mpr hc))]
    simp

/-- Witness for C2: function code 5 (`write_single_coil`) broadcasts exactly
once before the reply write; function code 3 (`read_holding_registers`)
does not broadcast. -/
theorem notifier_broadcast_iff_write_code_witness :
    MbProcSignal.aduRoundEvents 5 =
      [MbProcSignal.WireEvent.broadcast 5, MbProcSignal.WireEvent.replyWrite] ∧
    MbProcSignal.aduRoundEvents 3 = [MbProcSignal.WireEvent.replyWrite] :=
  ⟨(notifier_broadcast_iff_write_code 5).1 (by decide),
   (notifier_broadcast_iff_write_code 3).2 (by decide)⟩

/-- Helper for C8: when no delivery fails with an error other than `ESRCH`,
the loop completes and collects exactly the pids whose delivery reported
`ESRCH`, in iteration order. -/
theorem sendLoop_completes (deliver : Int → MbProcSignal.SigResult)
    (procs : List Int)
    (h : ∀ p ∈ procs, deliver p ≠ .otherError) :
    MbProcSignal.sendLoop deliver procs =
      .ok (procs.filter (fun p => decide (deliver p = .esrch))) := by
  induction procs with
  | nil => simp [MbProcSignal.sendLoop]
  | cons p rest ih =>
    have hp : deliver p ≠ .otherError := h p (by simp)
    have hr : ∀ q ∈ rest, deliver q ≠ .otherError :=
      fun q hq => h q (by simp [hq])
    cases hd : deliver p with
    | ok => simp [MbProcSignal.sendLoop, hd, ih hr]
    | esrch => simp [MbProcSignal.sendLoop, hd, ih hr, Except.map]
    | otherError => exact absurd hd hp

/-- Helper for C8: a delivery failure other than `ESRCH` aborts the loop with
an error naming some pid of the set whose delivery failed that way. -/
theorem sendLoop_aborts (deliver : Int → MbProcSignal.SigResult)
    (procs : List Int) (p : Int) (hp : p ∈ procs)
    (he : deliver p = .otherError) :
    ∃ q ∈ procs, deliver q = .otherError ∧
      MbProcSignal.sendLoop deliver procs = .error q := by
  induction procs with
  | nil => cases hp
  | cons a rest ih =>
    cases ha : deliver a with
    | otherError =>
      exact ⟨a, by simp, ha, by simp [MbProcSignal.sendLoop, ha]⟩
    | ok =>
      have hpr : p ∈ rest := by
        rcases List.mem_cons.mp hp with rfl | hr
        · exact absurd ha (by simp [he])
        · exact hr
      obtain ⟨q, hq, hqe, hrun⟩ := ih hpr
      exact ⟨q, by simp [hq], hqe, by simp [MbProcSignal.sendLoop, ha, hrun, Except.map]⟩
    | esrch =>
      have hpr : p ∈ rest := by
        rcases List.mem_cons.mp hp with rfl | hr
        · exact absurd ha (by simp [he])
        · exact hr
      obtain ⟨q, hq, hqe, hrun⟩ := ih hpr
      exact ⟨q, by simp [hq], hqe, by simp [MbProcSignal.sendLoop, ha, hrun, Except.map]⟩

/-- C8: if no delivery fails with an error other than `ESRCH`, `send_signal`
completes and the receiver set afterwards is exactly the old set minus
every pid whose delivery reported `ESRCH` — in particular such a pid is
not in the set any subsequent broadcast iterates; if some delivery fails
with another error, the broadcast aborts with a system error (for a pid
of the set whose delivery failed that way). -/
theorem send_signal_stale_cleanup (processes : List Int)
    (deliver : Int → MbProcSignal.SigResult) :
    ((∀ p ∈ processes, deliver p ≠ .otherError) →
      MbProcSignal.send_signal processes deliver =
        .ok (processes.filter (fun p => decide (deliver p ≠ .esrch))) ∧
      ∀ p ∈ processes, deliver p = .esrch →
        ∀ result, MbProcSignal.send_signal processes deliver = .ok result →
          p ∉ result) ∧
    (∀ p ∈ processes, deliver p = .otherError →
      ∃ q ∈ processes, deliver q = .otherError ∧
        MbProcSignal.send_signal processes deliver = .error q) := by
  constructor
  · intro h
    have hloop := sendLoop_completes deliver processes h
    have hok : MbProcSignal.send_signal processes deliver =
        .ok (processes.filter (fun p => decide (deliver p ≠ .esrch))) := by
      unfold MbProcSignal.send_signal
      rw [hloop]
      simp only [Except.map]
      congr 1
      apply List.filter_congr
      intro x hx
      simp [List.mem_filter, hx]
    refine ⟨hok, fun p hp hesrch result hres => ?_⟩
    rw [hok] at hres
    injection hres with hres
    rw [← hres]
    simp [List.mem_filter, hesrch]
  · intro p hp he
    obtain ⟨q, hq, hqe, hrun⟩ := sendLoop_aborts deliver processes p hp he
    exact ⟨q, hq, hqe, by unfold MbProcSignal.send_signal; rw [hrun]; rfl⟩

/-- Witness for C8: receivers {1, 2, 3} with pid 2 reporting `ESRCH` end as
{1, 3}, and 2 is no longer attempted; a receiver set {4} whose delivery
fails with another error makes the broadcast abort with that pid. -/
theorem send_signal_stale_cleanup_witness :
    MbProcSignal.send_signal [1, 2, 3]
        (fun p => if p = 2 then .esrch else .ok) = .ok [1, 3] ∧
    (2 : Int) ∉ ([1, 3] : List Int) ∧
    ∃ q ∈ ([4] : List Int),
      (fun _ : Int => MbProcSignal.SigResult.otherError) q = .otherError ∧
      MbProcSignal.send_signal [4] (fun _ => .otherError) = .error q := by
  have h1 := (send_signal_stale_cleanup [1, 2, 3]
    (fun p => if p = 2 then .esrch else .ok)).1 (by decide)
  have h2 := (send_signal_stale_cleanup [4] (fun _ => .otherError)).2 4
    (by decide) (by decide)
  refine ⟨?_, by decide, h2⟩
  rw [h1.1]
  rfl

/-- Helper for C10: the `--separate` loop sets every slot whose index is in
the iterated list to its own dedicated bank and leaves the rest alone. -/
theorem separateLoop_eval (l : List Nat) (m : Nat → Main.BankSlot) (i : Nat) :
    Main.separateLoop l m i =
      if i ∈ l then Main.BankSlot.dedicated i else m i := by
  induction l generalizing m with
  | nil => simp [Main.separateLoop]
  | cons a rest ih =>
    simp only [Main.separateLoop, ih]
    by_cases hr : i ∈ rest
    · simp [hr]
    · by_cases ha : i = a <;> simp [hr, ha, List.mem_cons]

/-- C10: the `--separate` id list is collapsed before bank creation — the
number of dedicated `Shm_Mapping` objects created equals the number of
distinct listed ids (multiplicity does not matter), each listed id's
directory slot points to that id's dedicated bank, and every unlisted
slot keeps the fallback bank. -/
theorem separate_banks_per_distinct_id (idList : List Nat) :
    (Main.buildSeparate idList).2 = idList.toFinset.card ∧
    ∀ i, (Main.buildSeparate idList).1 i =
      if i ∈ idList then Main.BankSlot.dedicated i else Main.BankSlot.fallback := by
  refine ⟨?_, fun i => ?_⟩
  · simp [Main.buildSeparate, List.card_toFinset]
  · simp [Main.buildSeparate, separateLoop_eval, List.mem_dedup]

/-- C7 counterexample: with `--do-registers 0` (and the other counts at their
defaults), the CLI checks of `main` pass (they compare with
`> MODBUS_MAX_REGS` only), the `Shm_Mapping` constructor throws
`std::invalid_argument`, and no `main` handler catches it — the process
does not exit with code 64. -/
theorem zero_register_count_not_exit_64 :
    Main.checkRegisterArgs 0 65536 65536 65536 = none ∧
    Main.startupOutcome 0 65536 65536 65536 =
      Main.StartupOutcome.uncaughtException ∧
    Main.startupOutcome 0 65536 65536 65536 ≠
      Main.StartupOutcome.exitCode Main.EX_USAGE := by
  refine ⟨by decide, by decide, by decide⟩

/-- C7 amended: a register count greater than 65536 is rejected by the CLI
checks with exit code `EX_USAGE = 64`; a register count of 0 passes the
CLI checks and instead makes the `Shm_Mapping` constructor throw
`std::invalid_argument`, which `main` does not catch (abnormal
termination, not exit 64). -/
theorem register_count_check_behavior (doRegs diRegs aoRegs aiRegs : Nat) :
    ((doRegs > 65536 ∨ diRegs > 65536 ∨ aoRegs > 65536 ∨ aiRegs > 65536) →
      Main.startupOutcome doRegs diRegs aoRegs aiRegs =
        Main.StartupOutcome.exitCode Main.EX_USAGE) ∧
    (doRegs ≤ 65536 → diRegs ≤ 65536 → aoRegs ≤ 65536 → aiRegs ≤ 65536 →
      (doRegs = 0 ∨ diRegs = 0 ∨ aoRegs = 0 ∨ aiRegs = 0) →
      Main.startupOutcome doRegs diRegs aoRegs aiRegs =
        Main.StartupOutcome.uncaughtException) := by
  unfold Main.startupOutcome Main.checkRegisterArgs Main.shmMappingArgCheck
    Main.MODBUS_MAX_REGS
  constructor
  · intro h
    split_ifs with h1 h2 h3 h4 <;> simp_all
  · intro h1 h2 h3 h4 h5
    split_ifs <;> simp_all <;> omega

/-- Witness for C7 (amended) at concrete inputs: count 70000 exits with 64;
count 0 ends in an uncaught exception. -/
theorem register_count_check_behavior_witness :
    Main.startupOutcome 70000 1 1 1 =
      Main.StartupOutcome.exitCode Main.EX_USAGE ∧
    Main.startupOutcome 0 1 1 1 = Main.StartupOutcome.uncaughtException :=
  ⟨(register_count_check_behavior 70000 1 1 1).1 (by decide),
   (register_count_check_behavior 0 1 1 1).2 (by decide) (by decide)
     (by decide) (by decide) (by decide)⟩
